import Mathlib

/-!
Verification of the resume-analyzer repository: shallow embedding of
the section-extraction parser, the GitHub repository fetch policy, the
credential resolution chain, the Gemini client wrappers and the result
display logic from src/app.py, with theorems settling the spec claims.
-/

/-- ASCII model of the Python regex class \s and of str.strip whitespace. -/
def isPySpace (c : Char) : Bool :=
  c = ' ' || c = '\t' || c = '\n' || c = '\r' || c = '\x0b' || c = '\x0c'

/-- ASCII model of the Python regex class \d. -/
def isPyDigit (c : Char) : Bool := c.isDigit

/-- Does the list start with the given pattern of characters (Python str.startswith)? -/
def hasPrefixChars : List Char → List Char → Bool
  | _, [] => true
  | [], _ :: _ => false
  | a :: as, b :: bs => a == b && hasPrefixChars as bs

/-- Substring containment on character lists (Python `needle in hay`). -/
def containsChars : List Char → List Char → Bool
  | [], needle => needle.isEmpty
  | x :: xs, needle => hasPrefixChars (x :: xs) needle || containsChars xs needle

/-- Python `hay.startswith(pre)` on strings. -/
def strStartsWith (s pre : String) : Bool := hasPrefixChars s.data pre.data

/-- Python `needle in hay` on strings. -/
def strContainsSub (hay needle : String) : Bool := containsChars hay.data needle.data

/-- Python str.strip(): drop leading and trailing whitespace. -/
def pyStripChars (s : List Char) : List Char :=
  ((s.dropWhile isPySpace).reverse.dropWhile isPySpace).reverse

/-- Python str.lower(), ASCII model, on character lists. -/
def pyLowerChars (s : List Char) : List Char := s.map Char.toLower

/-!
A continuation-passing backtracking matcher for the one regular expression
used by src/app.py (display_results.extract_section, lines 197-205):

  (?:^|\n)\s*\*\*(\d+\.\s+)?NAME\*\*(.*?)(?=\n\s*\*\*(\d+\.\s+)?.*?\*\*|\Z)

compiled with re.DOTALL and re.IGNORECASE and run by re.search, where NAME
is re.escape(section_name), hence a literal. Alternatives and repetitions
are tried in the same order as the Python engine: greedy pieces longest
first, lazy pieces shortest first, first success wins.
-/

/-- Match a literal character sequence, then continue. -/
def reLit {α : Type} : List Char → (List Char → Option α) → List Char → Option α
  | [], k, s => k s
  | c :: cs, k, s =>
    match s with
    | x :: xs => if x == c then reLit cs k xs else none
    | [] => none

/-- Match a literal character sequence case-insensitively (re.IGNORECASE), then continue. -/
def reLitCI {α : Type} : List Char → (List Char → Option α) → List Char → Option α
  | [], k, s => k s
  | c :: cs, k, s =>
    match s with
    | x :: xs => if x.toLower == c.toLower then reLitCI cs k xs else none
    | [] => none

/-- Greedy star over a character class: consume as much as possible,
backtracking one character at a time when the continuation fails. -/
def reStarGreedy {α : Type} (p : Char → Bool) (k : List Char → Option α) :
    List Char → Option α
  | [] => k []
  | x :: xs =>
    if p x then
      match reStarGreedy p k xs with
      | some r => some r
      | none => k (x :: xs)
    else k (x :: xs)

/-- Greedy plus over a character class: at least one character, then greedy star. -/
def rePlusGreedy {α : Type} (p : Char → Bool) (k : List Char → Option α) :
    List Char → Option α
  | [] => none
  | x :: xs => if p x then reStarGreedy p k xs else none

/-- Lazy star over any character (DOTALL .*?): try the shortest consumption
first, growing one character at a time when the continuation fails. -/
def reStarLazy {α : Type} (k : List Char → Option α) : List Char → Option α
  | [] => k []
  | x :: xs =>
    match k (x :: xs) with
    | some r => some r
    | none => reStarLazy k xs

/-- Lazy star over any character that also records the consumed characters,
for the capturing group (.*?). The continuation receives the capture so far
and the remaining input. -/
def reStarLazyCap {α : Type} (k : List Char → List Char → Option α) :
    List Char → List Char → Option α
  | acc, [] => k acc.reverse []
  | acc, x :: xs =>
    match k acc.reverse (x :: xs) with
    | some r => some r
    | none => reStarLazyCap k (x :: acc) xs

/-- The optional numbering group (\d+\.\s+)? — greedy, so the numbered
alternative is tried before the empty one. -/
def reOptNum {α : Type} (k : List Char → Option α) (s : List Char) : Option α :=
  match rePlusGreedy isPyDigit (fun s1 =>
    match s1 with
    | '.' :: s2 => rePlusGreedy isPySpace k s2
    | _ => none) s with
  | some r => some r
  | none => k s

/-- The first lookahead alternative \n\s*\*\*(\d+\.\s+)?.*?\*\* — only its
existence matters (the group inside a lookahead is never read). -/
def lookNextHeading (s : List Char) : Bool :=
  match s with
  | '\n' :: s1 =>
    (reStarGreedy isPySpace (fun s2 =>
      reLit ['*', '*'] (fun s3 =>
        reOptNum (fun s4 =>
          reStarLazy (fun s5 =>
            reLit ['*', '*'] (fun _ => some ()) s5) s4) s3) s2) s1).isSome
  | _ => false

/-- The full lookahead (?=\n\s*\*\*(\d+\.\s+)?.*?\*\*|\Z). -/
def headingLookahead (s : List Char) : Bool :=
  lookNextHeading s || s.isEmpty

/-- The body group (.*?) followed by the lookahead; returns the captured body. -/
def matchBody (s : List Char) : Option (List Char) :=
  reStarLazyCap (fun cap rest =>
    if headingLookahead rest then some cap else none) [] s

/-- The pattern after the (?:^|\n) anchor:
\s*\*\*(\d+\.\s+)?NAME\*\*(.*?)(?=...), returning group 2. -/
def matchAfterAnchor (name : List Char) (s : List Char) : Option (List Char) :=
  reStarGreedy isPySpace (fun s1 =>
    reLit ['*', '*'] (fun s2 =>
      reOptNum (fun s3 =>
        reLitCI name (fun s4 =>
          reLit ['*', '*'] (fun s5 => matchBody s5) s4) s3) s2) s1) s

/-- Try the whole pattern at one start position. atStart indicates string
position 0, where the ^ alternative of (?:^|\n) applies (no re.MULTILINE);
the \n alternative is tried if ^ fails, exactly as the engine backtracks. -/
def matchAt (name : List Char) (atStart : Bool) (s : List Char) : Option (List Char) :=
  match (if atStart then matchAfterAnchor name s else none) with
  | some r => some r
  | none =>
    match s with
    | '\n' :: s1 => matchAfterAnchor name s1
    | _ => none

/-- re.search: try each start position from the left, first match wins.
Returns group 2 of the first match. -/
def searchSection (name : List Char) : Bool → List Char → Option (List Char)
  | atStart, s =>
    match matchAt name atStart s with
    | some r => some r
    | none =>
      match s with
      | [] => none
      | _ :: xs => searchSection name false xs

/-- extract_section from src/app.py lines 197-205: run the regex search; on a
match, strip the captured body, and treat an empty body or one that still
starts with a bold marker as not found. -/
def extract_section (text section_name : String) : Option String :=
  match searchSection section_name.data true text.data with
  | some body =>
    let content := pyStripChars body
    if content.isEmpty || hasPrefixChars content ['*', '*'] then none
    else some (String.mk content)
  | none => none

/-!
GitHub repository fetch (src/app.py lines 33-109). Streamlit UI emissions
(st.error, st.sidebar.warning, st.sidebar.info) are modelled as a list of
messages returned alongside the value; the numeric rate-limit caption of
line 62 (pure telemetry) is elided. The GitHub API is modelled by the
outcome the PyGithub calls would have produced: a list of repositories
(already sorted most-recently-updated first, as requested on line 65), or
one of the exceptions caught on lines 99-109. A repository's README fetch
and decode (lines 78-85) is modelled by its final outcome: the decoded
text, or failure (missing file, decode error, anything else).
-/

/-- A Streamlit message, tagged by the channel the code emits it on. -/
inductive Msg where
  | errorMsg (s : String)
  | sidebarWarning (s : String)
  | sidebarInfo (s : String)
  deriving DecidableEq

/-- Whether a message is an error (st.error) rather than informational. -/
def Msg.isError : Msg → Bool
  | .errorMsg _ => true
  | _ => false

/-- A repository as seen through the GitHub API, with its README fetch
already resolved to decoded text or failure. -/
structure Repo where
  name : String
  description : Option String
  fork : Bool
  readmeFetch : Option (List Char)
  deriving DecidableEq

/-- An entry of the returned repo_data list (lines 87-91). -/
structure RepoInfo where
  name : String
  description : String
  readme : List Char
  deriving DecidableEq

/-- max_repos_to_process (line 69). -/
def max_repos_to_process : Nat := 50

/-- Python `x or dflt` for an optional string: the default replaces None and
the empty string. -/
def pyOrDefault (d : Option String) (dflt : String) : String :=
  match d with
  | some s => if s == "" then dflt else s
  | none => dflt

/-- Lines 77-91: README failures yield empty content; the entry takes the
description or a default, and the README is cut to 8000 characters
(readme_content[:8000] if readme_content else ""). -/
def mkRepoInfo (repo : Repo) : RepoInfo :=
  let readme_content : List Char :=
    match repo.readmeFetch with
    | some c => c
    | none => []
  { name := repo.name
    description := pyOrDefault repo.description "No description provided."
    readme := if readme_content.isEmpty then [] else readme_content.take 8000 }

/-- The loop state after the for loop of lines 71-93 finishes. -/
structure LoopResult where
  repo_data : List RepoInfo
  msgs : List Msg
  processed_count : Nat
  deriving DecidableEq

/-- Line 74 message. -/
def stoppedFetchingMsg : String :=
  s!"Stopped fetching after processing {max_repos_to_process} non-forked repos to manage API usage."

/-- The for loop of lines 71-93: skip forks, break (with a sidebar info)
once processed_count reaches the cap, otherwise append an entry and count it. -/
def fetchLoop : List Repo → Nat → LoopResult
  | [], c => ⟨[], [], c⟩
  | r :: rs, c =>
    if r.fork then fetchLoop rs c
    else if c ≥ max_repos_to_process then ⟨[], [Msg.sidebarInfo stoppedFetchingMsg], c⟩
    else
      let rest := fetchLoop rs (c + 1)
      ⟨mkRepoInfo r :: rest.repo_data, rest.msgs, rest.processed_count⟩

/-- The outcome of the PyGithub calls of lines 64-65 for one username. -/
inductive GithubApi where
  | ok (repos : List Repo)
  | rateLimited
  | userNotFound
  | otherError (typeName msg : String)
  deriving DecidableEq

/-- Python truthiness of an optional string: None and "" are falsy. -/
def pyFalsy : Option String → Bool
  | none => true
  | some s => s == ""

/-- Lines 56-60 warning (unauthenticated access). -/
def noTokenWarning : String :=
  "No GitHub token provided (checked input, secrets & env var). Using unauthenticated access (low rate limits: ~60/hr). May hit 'Rate Limit Exceeded'. Add a token for higher limits."

/-- Line 96 warning. -/
def noReposFoundMsg (username : String) : String :=
  s!"No non-forked public repositories found for user '{username}'."

/-- Line 100 error. -/
def rateLimitErrorMsg : String :=
  "GitHub API Rate Limit Exceeded. Please wait a while before trying again."

/-- Line 102 error. -/
def considerTokenMsg : String :=
  "Consider adding a GitHub Personal Access Token to significantly increase the rate limit."

/-- Line 105 error. -/
def userNotFoundMsg (username : String) : String :=
  s!"GitHub user '{username}' not found. Please check the username."

/-- Line 108 error. -/
def unexpectedFetchErrorMsg (typeName msg : String) : String :=
  s!"An unexpected error occurred while fetching GitHub repositories: {typeName} - {msg}"

/-- fetch_github_repos, lines 51-109, after the token has been resolved
(github_token holds the resolved value). Returns the repo_data list the
Python function returns, paired with the messages it emits. -/
def fetch_github_repos (username : String) (github_token : Option String)
    (api : GithubApi) : List RepoInfo × List Msg :=
  let preMsgs := if pyFalsy github_token then [Msg.sidebarWarning noTokenWarning] else []
  match api with
  | .ok repos =>
    let r := fetchLoop repos 0
    let post :=
      if r.repo_data.isEmpty && r.processed_count == 0 then
        [Msg.sidebarWarning (noReposFoundMsg username)]
      else []
    (r.repo_data, preMsgs ++ r.msgs ++ post)
  | .rateLimited =>
    ([], preMsgs ++ [Msg.errorMsg rateLimitErrorMsg] ++
      (if pyFalsy github_token then [Msg.errorMsg considerTokenMsg] else []))
  | .userNotFound =>
    ([], preMsgs ++ [Msg.errorMsg (userNotFoundMsg username)])
  | .otherError typeName msg =>
    ([], preMsgs ++ [Msg.errorMsg (unexpectedFetchErrorMsg typeName msg)])

/-- Token resolution, lines 39-49. The secret store is None when reading
st.secrets raises (the exception is swallowed on lines 45-46); otherwise an
association list. The environment is an association list. -/
def resolve_github_token (github_token_from_input : Option String)
    (secrets : Option (List (String × String)))
    (env : List (String × String)) : Option String :=
  let github_token := github_token_from_input
  let github_token :=
    if pyFalsy github_token then
      match secrets with
      | some store =>
        match store.lookup "GITHUB_TOKEN" with
        | some v => some v
        | none => github_token
      | none => github_token
    else github_token
  if pyFalsy github_token then env.lookup "GITHUB_TOKEN" else github_token

/-- Line 52: the token actually used for authentication — Github(token) when
the resolved value is truthy, unauthenticated Github() otherwise. -/
def auth_token_used (github_token_from_input : Option String)
    (secrets : Option (List (String × String)))
    (env : List (String × String)) : Option String :=
  let t := resolve_github_token github_token_from_input secrets env
  if pyFalsy t then none else t

/-!
Gemini client wrappers (analyze_with_gemini, lines 125-192, and
answer_with_gemini, lines 354-404). The generate_content call is modelled
by its outcome: the response text, or the exception it raised (type name
and message). The outcome records the returned string, the messages
emitted, and whether the generative request was attempted at all.
-/

/-- A Python exception, reduced to its type name and str(e). -/
structure PyError where
  typeName : String
  msg : String
  deriving DecidableEq

/-- What a Gemini wrapper call produces: the string it returns, the
messages it emits, and whether model.generate_content was reached. -/
structure GeminiOutcome where
  response : String
  msgs : List Msg
  attempted : Bool
  deriving DecidableEq

/-- Lines 129-131 / 358-360 message. -/
def missingKeyErrorMsg : String := "Gemini API key is missing. Please add it in the sidebar."

/-- Lines 131 / 360 return value. -/
def missingKeyResult : String := "Error: Gemini API key is missing."

/-- Lines 184-191 / 396-403: the error messages emitted when the Gemini
call raises, classified by inspecting the exception text. -/
def classifyGeminiError (e : PyError) : List Msg :=
  [Msg.errorMsg s!"Error analyzing with Gemini: {e.typeName} - {e.msg}"] ++
  (if strContainsSub e.msg "API key not valid" then
    [Msg.errorMsg "Invalid Gemini API Key. Please check the key in the sidebar."]
  else if containsChars (pyLowerChars e.msg.data) "quota".data then
    [Msg.errorMsg "Quota exceeded for Gemini API. Check your usage limits or try again later."]
  else if containsChars (pyLowerChars e.msg.data) "blocked".data then
    [Msg.errorMsg "Content was blocked by the Gemini API safety filters. Please review inputs."]
  else [])

/-- Line 192 / 404 return value when the Gemini call raises. -/
def geminiErrorResult (e : PyError) : String :=
  s!"An error occurred during Gemini analysis: {e.msg}"

/-- analyze_with_gemini, lines 125-192: the key is read from the session
state; a falsy key is reported and returned as an error string before any
request; otherwise the generative request runs and its outcome is returned
or classified. -/
def analyze_with_gemini (gemini_api_key : Option String)
    (modelCall : Except PyError String) : GeminiOutcome :=
  if pyFalsy gemini_api_key then
    ⟨missingKeyResult, [Msg.errorMsg missingKeyErrorMsg], false⟩
  else
    match modelCall with
    | .ok t => ⟨t, [], true⟩
    | .error e => ⟨geminiErrorResult e, classifyGeminiError e, true⟩

/-- answer_with_gemini, lines 354-404: identical control flow to
analyze_with_gemini (the code duplicates it with a different prompt). -/
def answer_with_gemini (gemini_api_key : Option String)
    (modelCall : Except PyError String) : GeminiOutcome :=
  if pyFalsy gemini_api_key then
    ⟨missingKeyResult, [Msg.errorMsg missingKeyErrorMsg], false⟩
  else
    match modelCall with
    | .ok t => ⟨t, [], true⟩
    | .error e => ⟨geminiErrorResult e, classifyGeminiError e, true⟩

/-!
display_results (src/app.py lines 195-238), modelled as the list of
Streamlit calls it performs, in order.
-/

/-- One Streamlit rendering call made by display_results. -/
inductive DisplayAction where
  | subheader (s : String)
  | errorMsg (s : String)
  | expanderStart (title : String) (expanded : Bool)
  | markdown (s : String)
  | warn (s : String)
  | textArea (label content : String)
  deriving DecidableEq

/-- Lines 210-215: the four requested section titles, in order. -/
def sections_to_display : List String :=
  ["Skills to Highlight", "Projects to Showcase", "Resume Objective", "Interview Preparation Tips"]

/-- The marker of line 217, produced on line 192 / 404. -/
def geminiErrorMarker : String := "An error occurred during Gemini analysis:"

/-- Lines 221-230: one iteration of the display loop — an expander holding
either the extracted section (plus a copy box for the Resume Objective) or
a warning that the section could not be extracted. -/
def sectionActions (analysis_text title : String) : List DisplayAction :=
  match extract_section analysis_text title with
  | some content =>
    [DisplayAction.expanderStart title true, DisplayAction.markdown content] ++
    (if title == "Resume Objective" then
      [DisplayAction.textArea "Copy-paste ready objective:" content]
    else [])
  | none =>
    [DisplayAction.expanderStart title true,
     DisplayAction.warn s!"Could not extract '{title}' section from the AI response. Check the raw response below for formatting issues."]

/-- display_results, lines 195-238: header, early return on error text,
otherwise the four section expanders followed by either the raw-response
fallback (no section found, non-empty text) or the collapsed raw-response
expander (non-empty text). -/
def display_results (analysis_text : String) : List DisplayAction :=
  let header := [DisplayAction.subheader "📊 Analysis Results"]
  if strStartsWith analysis_text "Error:" || strContainsSub analysis_text geminiErrorMarker then
    header ++ [DisplayAction.errorMsg ("Analysis failed: " ++ analysis_text)]
  else
    let body := (sections_to_display.map (sectionActions analysis_text)).flatten
    let sections_found_count :=
      (sections_to_display.filter (fun t => (extract_section analysis_text t).isSome)).length
    let tailActs :=
      if sections_found_count == 0 && !(analysis_text == "") &&
          !(strStartsWith analysis_text "Error:") then
        [DisplayAction.warn "Could not parse structured sections from the AI response. Displaying raw response below:",
         DisplayAction.expanderStart "Show Raw Gemini Response (Parsing Failed)" true,
         DisplayAction.textArea "Raw Response" analysis_text]
      else if !(analysis_text == "") then
        [DisplayAction.expanderStart "Show Raw Gemini Response" false,
         DisplayAction.textArea "Raw Response from AI" analysis_text]
      else []
    header ++ body ++ tailActs

/-!
Helper lemmas, shared by the claim theorems below.
-/

/-- The repo_data the loop builds is exactly the non-forked repositories,
in encounter order, cut to the room the counter leaves, each turned into
its RepoInfo entry. -/
theorem fetchLoop_repo_data (rs : List Repo) : ∀ c : Nat,
    (fetchLoop rs c).repo_data =
      ((rs.filter fun r => !r.fork).take (max_repos_to_process - c)).map mkRepoInfo := by
  induction rs with
  | nil => intro c; simp [fetchLoop]
  | cons r rs ih =>
    intro c
    by_cases hf : r.fork = true
    · simp [fetchLoop, hf, List.filter_cons, ih c]
    · have hf2 : r.fork = false := by simpa using hf
      by_cases hc : c ≥ max_repos_to_process
      · have h0 : max_repos_to_process - c = 0 := Nat.sub_eq_zero_of_le hc
        simp [fetchLoop, hf2, hc, List.filter_cons, h0]
      · have hstep : max_repos_to_process - c = (max_repos_to_process - (c + 1)) + 1 := by
          omega
        simp [fetchLoop, hf2, hc, List.filter_cons, hstep, List.take_succ_cons, ih (c + 1)]

/-- A list of forks only is skipped entirely: no entries, no messages, the
counter untouched. -/
theorem fetchLoop_all_fork (rs : List Repo) : ∀ c : Nat,
    (∀ r ∈ rs, r.fork = true) → fetchLoop rs c = ⟨[], [], c⟩ := by
  induction rs with
  | nil => intro c _; simp [fetchLoop]
  | cons r rs ih =>
    intro c h
    have hr : r.fork = true := h r (List.mem_cons_self r rs)
    have : fetchLoop (r :: rs) c = fetchLoop rs c := by simp [fetchLoop, hr]
    rw [this]
    exact ih c fun x hx => h x (List.mem_cons_of_mem r hx)

/-- The loop emits no st.error message (its only message is the sidebar
info on hitting the cap). -/
theorem fetchLoop_msgs_not_error (rs : List Repo) : ∀ c : Nat,
    ∀ m ∈ (fetchLoop rs c).msgs, m.isError = false := by
  induction rs with
  | nil => intro c m hm; simp [fetchLoop] at hm
  | cons r rs ih =>
    intro c m hm
    by_cases hf : r.fork = true
    · rw [show fetchLoop (r :: rs) c = fetchLoop rs c from by simp [fetchLoop, hf]] at hm
      exact ih c m hm
    · have hf2 : r.fork = false := by simpa using hf
      by_cases hc : c ≥ max_repos_to_process
      · simp [fetchLoop, hf2, hc] at hm
        simp [hm, Msg.isError]
      · simp [fetchLoop, hf2, hc] at hm
        exact ih (c + 1) m hm

/-- Every produced entry keeps its README excerpt within 8000 characters. -/
theorem mkRepoInfo_readme_le (r : Repo) : (mkRepoInfo r).readme.length ≤ 8000 := by
  unfold mkRepoInfo
  cases h : r.readmeFetch with
  | none => simp [h]
  | some c =>
    by_cases he : c.isEmpty
    · simp [h, he]
    · simp [h, he]

/-- The value fetch_github_repos returns on a successful listing: the first
max_repos_to_process non-forked repositories, in order, as entries. -/
theorem fetch_github_repos_ok_fst (username : String) (tok : Option String)
    (repos : List Repo) :
    (fetch_github_repos username tok (GithubApi.ok repos)).1 =
      ((repos.filter fun r => !r.fork).take max_repos_to_process).map mkRepoInfo := by
  have h := fetchLoop_repo_data repos 0
  simp [fetch_github_repos]
  simpa using h

/-- Any message a successful fetch emits is the unauthenticated-access
warning, a loop message, or the no-repositories warning. -/
theorem fetch_github_repos_ok_msgs_cases (username : String) (tok : Option String)
    (repos : List Repo) (m : Msg)
    (hm : m ∈ (fetch_github_repos username tok (GithubApi.ok repos)).2) :
    m = Msg.sidebarWarning noTokenWarning ∨ m ∈ (fetchLoop repos 0).msgs ∨
      m = Msg.sidebarWarning (noReposFoundMsg username) := by
  simp only [fetch_github_repos, List.mem_append] at hm
  rcases hm with (hm | hm) | hm
  · split at hm
    · simp at hm
      exact Or.inl hm
    · simp at hm
  · exact Or.inr (Or.inl hm)
  · split at hm
    · simp at hm
      exact Or.inr (Or.inr hm)
    · simp at hm

/-- On a successful listing, fetch_github_repos emits no st.error message. -/
theorem fetch_github_repos_ok_no_error (username : String) (tok : Option String)
    (repos : List Repo) :
    ∀ m ∈ (fetch_github_repos username tok (GithubApi.ok repos)).2, m.isError = false := by
  intro m hm
  rcases fetch_github_repos_ok_msgs_cases username tok repos m hm with hm | hm | hm
  · simp [hm, Msg.isError]
  · exact fetchLoop_msgs_not_error repos 0 m hm
  · simp [hm, Msg.isError]

/-- The specification of the credential chain as an ordered short-circuiting
lookup: the first candidate that is neither absent nor empty wins. -/
def firstTruthy (candidates : List (Option String)) : Option String :=
  match candidates.find? (fun c => !pyFalsy c) with
  | some c => c
  | none => none

/-- The ordered-fallback reading of firstTruthy: skip a falsy head. -/
theorem firstTruthy_cons (c : Option String) (cs : List (Option String)) :
    firstTruthy (c :: cs) = if pyFalsy c then firstTruthy cs else c := by
  unfold firstTruthy
  cases h : pyFalsy c <;> simp [List.find?_cons, h]

/-!
The claim theorems.
-/

/-- C1: extract_section finds a bolded, optionally numbered heading equal to
the requested title (case-insensitively) and returns the text from just
after the heading up to the next bolded heading or end of text; on the
spec's example text it returns "Python" for "Skills to Highlight" and
"Proj A" for "Projects to Showcase". -/
theorem extract_section_spec_example :
    extract_section "**1. Skills to Highlight**\nPython\n**2. Projects to Showcase**\nProj A"
        "Skills to Highlight" = some "Python" ∧
    extract_section "**1. Skills to Highlight**\nPython\n**2. Projects to Showcase**\nProj A"
        "Projects to Showcase" = some "Proj A" := by
  constructor <;> decide

/-- C2: for every username and credential, a successful fetch returns at
most 50 entries, none derived from a forked repository (the result is
exactly the most-recently-updated-first non-forked repositories, in
encounter order, cut at the cap), and every README excerpt has length at
most 8000 characters. -/
theorem fetch_repos_cap_noforks_readme (username : String) (tok : Option String)
    (repos : List Repo) :
    (fetch_github_repos username tok (GithubApi.ok repos)).1 =
      ((repos.filter fun r => !r.fork).take max_repos_to_process).map mkRepoInfo ∧
    (fetch_github_repos username tok (GithubApi.ok repos)).1.length ≤ 50 ∧
    ∀ info ∈ (fetch_github_repos username tok (GithubApi.ok repos)).1,
      info.readme.length ≤ 8000 := by
  have h1 := fetch_github_repos_ok_fst username tok repos
  refine ⟨h1, ?_, ?_⟩
  · rw [h1, List.length_map]
    exact List.length_take_le max_repos_to_process _
  · intro info hinfo
    rw [h1] at hinfo
    rcases List.mem_map.mp hinfo with ⟨r, _, rfl⟩
    exact mkRepoInfo_readme_le r

/-- C5: when the regex search succeeds but the captured body strips to
nothing, or the stripped body still starts with a bold marker,
extract_section returns none rather than an empty or mis-anchored section. -/
theorem extract_section_guard_none (text name : String) (body : List Char)
    (hs : searchSection name.data true text.data = some body)
    (hguard : pyStripChars body = [] ∨
      hasPrefixChars (pyStripChars body) ['*', '*'] = true) :
    extract_section text name = none := by
  unfold extract_section
  rw [hs]
  rcases hguard with h | h
  · simp [h]
  · simp [h]

/-- C5 witness: on the text consisting only of the heading, the search
matches with an empty body and extract_section returns none. -/
theorem extract_section_guard_none_witness :
    searchSection "Skills to Highlight".data true "**Skills to Highlight**".data = some [] ∧
    extract_section "**Skills to Highlight**" "Skills to Highlight" = none :=
  ⟨by decide,
   extract_section_guard_none "**Skills to Highlight**" "Skills to Highlight" []
     (by decide) (by decide)⟩

/-- C6: section extraction is a pure function of the response text and the
section title — two calls on identical inputs yield identical outputs, and
the call leaves the source text untouched (the embedding is functional, so
purity and the absence of mutation hold by construction). -/
theorem extract_section_deterministic (text name : String) :
    extract_section text name = extract_section text name := rfl

/-- C8 counterexample: the secret store holds GITHUB_TOKEN (with the empty
string as its value) and the explicit argument is absent, yet the resolved
credential is the environment value, not the stored secret — a present but
empty source does not win. -/
theorem token_priority_counterexample :
    List.lookup "GITHUB_TOKEN" [("GITHUB_TOKEN", "")] = some "" ∧
    resolve_github_token none (some [("GITHUB_TOKEN", "")])
      [("GITHUB_TOKEN", "envtok")] = some "envtok" ∧
    ("envtok" : String) ≠ "" := by
  refine ⟨by decide, by decide, by decide⟩

/-- C8 amended: the credential actually used is resolved by a
short-circuiting priority chain over explicit argument, secret store and
environment variable, where a source that is absent or empty is skipped:
the first non-empty source wins, and none leaves access unauthenticated. -/
theorem token_priority_amended (input : Option String)
    (secrets : Option (List (String × String))) (env : List (String × String)) :
    auth_token_used input secrets env =
      firstTruthy [input, secrets.bind (fun store => store.lookup "GITHUB_TOKEN"),
        env.lookup "GITHUB_TOKEN"] := by
  rw [firstTruthy_cons, firstTruthy_cons, firstTruthy_cons]
  have h0 : firstTruthy [] = none := rfl
  rw [h0]
  unfold auth_token_used resolve_github_token
  have hnone : pyFalsy (none : Option String) = true := rfl
  by_cases h1 : pyFalsy input = true
  · simp only [h1, ite_true]
    cases secrets with
    | none =>
      simp only [Option.none_bind, hnone, ite_true, h1]
    | some store =>
      simp only [Option.some_bind]
      cases hlk : store.lookup "GITHUB_TOKEN" with
      | none => simp only [hnone, ite_true, h1]
      | some v =>
        by_cases hv : pyFalsy (some v) = true
        · simp only [hv, ite_true]
        · simp [hv]
  · simp only [h1]
    simp at h1
    simp [h1]

/-- C3: a nonexistent username produces a UserNotFound error outcome,
distinguishable from the outcome for an existing user with zero public
non-forked repositories — the latter is an empty list (a success, no error
message) plus an informational sidebar warning, and the two outcomes
differ. -/
theorem user_not_found_vs_empty_success (username : String) (tok : Option String)
    (repos : List Repo) (hall : ∀ r ∈ repos, r.fork = true) :
    (fetch_github_repos username tok (GithubApi.ok repos)).1 = [] ∧
    Msg.sidebarWarning (noReposFoundMsg username) ∈
      (fetch_github_repos username tok (GithubApi.ok repos)).2 ∧
    (∀ m ∈ (fetch_github_repos username tok (GithubApi.ok repos)).2,
      m.isError = false) ∧
    Msg.errorMsg (userNotFoundMsg username) ∈
      (fetch_github_repos username tok GithubApi.userNotFound).2 ∧
    fetch_github_repos username tok (GithubApi.ok repos) ≠
      fetch_github_repos username tok GithubApi.userNotFound := by
  have hloop := fetchLoop_all_fork repos 0 hall
  have hfilter : repos.filter (fun r => !r.fork) = [] := by
    rw [List.filter_eq_nil_iff]
    intro r hr
    simp [hall r hr]
  refine ⟨?_, ?_, fetch_github_repos_ok_no_error username tok repos, ?_, ?_⟩
  · rw [fetch_github_repos_ok_fst, hfilter]
    rfl
  · simp [fetch_github_repos, hloop, List.mem_append]
  · simp [fetch_github_repos, List.mem_append]
  · intro hEq
    have h2 := congrArg Prod.snd hEq
    by_cases hp : pyFalsy tok = true <;> simp [fetch_github_repos, hloop, hp] at h2

/-- C3 witness: a user whose only repository is a fork, against the
nonexistent-user outcome, at concrete inputs. -/
theorem user_not_found_vs_empty_success_witness :
    (fetch_github_repos "ghost" none (GithubApi.ok [⟨"copy", none, true, none⟩])).1 = [] ∧
    Msg.sidebarWarning (noReposFoundMsg "ghost") ∈
      (fetch_github_repos "ghost" none (GithubApi.ok [⟨"copy", none, true, none⟩])).2 ∧
    (∀ m ∈ (fetch_github_repos "ghost" none (GithubApi.ok [⟨"copy", none, true, none⟩])).2,
      m.isError = false) ∧
    Msg.errorMsg (userNotFoundMsg "ghost") ∈
      (fetch_github_repos "ghost" none GithubApi.userNotFound).2 ∧
    fetch_github_repos "ghost" none (GithubApi.ok [⟨"copy", none, true, none⟩]) ≠
      fetch_github_repos "ghost" none GithubApi.userNotFound :=
  user_not_found_vs_empty_success "ghost" none [⟨"copy", none, true, none⟩] (by decide)

/-- C7: a retained non-forked repository whose README fetch or decode
failed still yields an entry, with an empty README excerpt, and the fetch
as a whole stays a success: no error message is emitted. -/
theorem readme_failure_swallowed (username : String) (tok : Option String)
    (repos : List Repo) (r : Repo)
    (hr : r ∈ (repos.filter fun x => !x.fork).take max_repos_to_process)
    (hfail : r.readmeFetch = none) :
    (mkRepoInfo r).readme = [] ∧
    mkRepoInfo r ∈ (fetch_github_repos username tok (GithubApi.ok repos)).1 ∧
    ∀ m ∈ (fetch_github_repos username tok (GithubApi.ok repos)).2,
      m.isError = false := by
  refine ⟨?_, ?_, fetch_github_repos_ok_no_error username tok repos⟩
  · simp [mkRepoInfo, hfail]
  · rw [fetch_github_repos_ok_fst]
    exact List.mem_map_of_mem mkRepoInfo hr

/-- C7 witness: a non-forked repository with a failed README fetch, at
concrete inputs. -/
theorem readme_failure_swallowed_witness :
    (mkRepoInfo ⟨"proj-x", some "demo", false, none⟩).readme = [] ∧
    mkRepoInfo ⟨"proj-x", some "demo", false, none⟩ ∈
      (fetch_github_repos "alice" (some "tok")
        (GithubApi.ok [⟨"proj-x", some "demo", false, none⟩])).1 ∧
    ∀ m ∈ (fetch_github_repos "alice" (some "tok")
        (GithubApi.ok [⟨"proj-x", some "demo", false, none⟩])).2,
      m.isError = false :=
  readme_failure_swallowed "alice" (some "tok") [⟨"proj-x", some "demo", false, none⟩]
    ⟨"proj-x", some "demo", false, none⟩ (by decide) rfl

/-- C9: with an absent (missing or empty) API key both Gemini wrappers
return the missing-key error immediately, emit the missing-key message, and
never attempt the generative request. -/
theorem missing_key_no_request (gemini_api_key : Option String)
    (analyzeCall answerCall : Except PyError String)
    (hk : pyFalsy gemini_api_key = true) :
    analyze_with_gemini gemini_api_key analyzeCall =
      ⟨missingKeyResult, [Msg.errorMsg missingKeyErrorMsg], false⟩ ∧
    answer_with_gemini gemini_api_key answerCall =
      ⟨missingKeyResult, [Msg.errorMsg missingKeyErrorMsg], false⟩ := by
  constructor <;> simp [analyze_with_gemini, answer_with_gemini, hk]

/-- C9 witness: the key is missing from the session, at concrete inputs. -/
theorem missing_key_no_request_witness :
    analyze_with_gemini none (Except.ok "reply one") =
      ⟨missingKeyResult, [Msg.errorMsg missingKeyErrorMsg], false⟩ ∧
    answer_with_gemini none (Except.ok "reply two") =
      ⟨missingKeyResult, [Msg.errorMsg missingKeyErrorMsg], false⟩ :=
  missing_key_no_request none (Except.ok "reply one") (Except.ok "reply two") rfl

/-- C10: any analysis text starting with "Error:" or containing the Gemini
error marker is reported as a failed analysis, and display_results returns
right after — no section extraction, no fallback, even if the text is a
genuine model response. -/
theorem error_text_reported_not_parsed (analysis_text : String)
    (h : (strStartsWith analysis_text "Error:" ||
      strContainsSub analysis_text geminiErrorMarker) = true) :
    display_results analysis_text =
      [DisplayAction.subheader "📊 Analysis Results",
       DisplayAction.errorMsg ("Analysis failed: " ++ analysis_text)] := by
  unfold display_results
  simp [h]

/-- C10 witness: a genuine-looking response that happens to start with
"Error:" is nonetheless reported as a failure. -/
theorem error_text_reported_not_parsed_witness :
    display_results "Error: handling is a skill. **1. Skills to Highlight**\nPython" =
      [DisplayAction.subheader "📊 Analysis Results",
       DisplayAction.errorMsg
        ("Analysis failed: " ++ "Error: handling is a skill. **1. Skills to Highlight**\nPython")] :=
  error_text_reported_not_parsed
    "Error: handling is a skill. **1. Skills to Highlight**\nPython" (by decide)

/-- C4 counterexample: a non-empty response in which no requested section
is found, yet display_results does not surface it through the raw-response
fallback — the text starts with "Error:", so it is reported as a failed
analysis instead. -/
theorem fallback_counterexample :
    ("Error: the model replied with no sections" : String) ≠ "" ∧
    (∀ t ∈ sections_to_display,
      extract_section "Error: the model replied with no sections" t = none) ∧
    DisplayAction.textArea "Raw Response" "Error: the model replied with no sections" ∉
      display_results "Error: the model replied with no sections" := by
  refine ⟨by decide, by decide, by decide⟩

/-- C4 amended: for every non-empty response text that neither starts with
"Error:" nor contains the Gemini error marker, if extract_section finds
none of the four requested section titles then display_results surfaces the
entire response text as the raw-response fallback. -/
theorem fallback_amended (analysis_text : String)
    (hne : analysis_text ≠ "")
    (herr : strStartsWith analysis_text "Error:" = false)
    (hmark : strContainsSub analysis_text geminiErrorMarker = false)
    (hnone : ∀ t ∈ sections_to_display, extract_section analysis_text t = none) :
    DisplayAction.textArea "Raw Response" analysis_text ∈
      display_results analysis_text := by
  have h1 := hnone "Skills to Highlight" (by simp [sections_to_display])
  have h2 := hnone "Projects to Showcase" (by simp [sections_to_display])
  have h3 := hnone "Resume Objective" (by simp [sections_to_display])
  have h4 := hnone "Interview Preparation Tips" (by simp [sections_to_display])
  have hbeq : (analysis_text == "") = false := by
    simpa using hne
  unfold display_results
  simp [herr, hmark, sections_to_display, h1, h2, h3, h4, hbeq, sectionActions,
    List.mem_append]

/-- C4 amended witness: plain prose with no headings is surfaced whole as
the raw-response fallback. -/
theorem fallback_amended_witness :
    DisplayAction.textArea "Raw Response" "just some prose with no headings" ∈
      display_results "just some prose with no headings" :=
  fallback_amended "just some prose with no headings" (by decide) (by decide)
    (by decide) (by decide)
